import Mathlib

/-!
Collision plugin loader.

A shallow embedding of `collision_plugin_loader.cpp` (MoveIt 2): the cache of
collision-detection plugins kept by `CollisionPluginLoaderImpl`, its `load` and
`activate` operations, and `CollisionPluginLoader::setupScene`.

The collaborators that live outside the file (the pluginlib class loader, the
plugins themselves, the planning scene, the node's parameters and the logger)
are a `Host` record of functions over an arbitrary world type `ω`.  Every call
the code makes to a collaborator is appended to a trace, so that statements such
as "calls it exactly once" or "constructs nothing" are statements about lists.
Dereferencing a null `std::shared_ptr` is a `Fault`.  The only exception in the
model is `pluginlib::PluginlibException`, the one the file catches; the calls
to `initialize`, `has_parameter`, `get_parameter` and the logger return.
-/

namespace collision_detection

/-! ## Data model -/

/-- Identity of a `CollisionPlugin` object handed out by the host class loader. -/
abbrev CollisionPlugin := Nat

/-- The type `CollisionPluginPtr` is a `std::shared_ptr<CollisionPlugin>`; `none` is the null handle. -/
abbrev CollisionPluginPtr := Option CollisionPlugin

/-- Identity of a `planning_scene::PlanningScene` object. -/
abbrev PlanningScene := Nat

/-- The type `planning_scene::PlanningScenePtr`; `none` is the null handle. -/
abbrev PlanningScenePtr := Option PlanningScene

/-- Identity of a `pluginlib::ClassLoader<CollisionPlugin>` object. -/
abbrev ClassLoader := Nat

/-- The exception `pluginlib::PluginlibException`, with the text of `what()`. -/
structure PluginlibException where
  what : String
  deriving DecidableEq, Repr

/-- Severity of a log line (`RCLCPP_INFO`, `RCLCPP_WARN`, `RCLCPP_ERROR`). -/
inductive Severity where
  | info
  | warn
  | error
  deriving DecidableEq, Repr

/-- One call made to a collaborator, with what the call gave back where the
code looks at it.  For `createUniqueInstance` the result is `none` when the call
raised a `PluginlibException` and `some handle` when it returned `handle`. -/
inductive Event where
  | newClassLoader (package base_class : String) (constructed : Bool)
  | createUniqueInstance (name : String) (result : Option CollisionPluginPtr)
  | initializePlugin (plugin : CollisionPlugin) (scene : PlanningScenePtr) (result : Bool)
  | has_parameter (name : String)
  | get_parameter (name : String)
  | log (severity : Severity) (text : String)
  deriving DecidableEq, Repr

/-- The failure of a call that does not return: a null `std::shared_ptr` was
dereferenced (`loader_->...` or `node->...`). -/
inductive Fault where
  | nullDereference
  deriving DecidableEq, Repr

/-- The collaborators of the file, as functions over the world `ω` they may
read and change.  `initializePlugin p scene` stands for `p->initialize(scene)`
(`initialize` is a reserved word in Lean). -/
structure Host (ω : Type) where
  newClassLoader : String → String → ω → Except PluginlibException ClassLoader × ω
  createUniqueInstance : ClassLoader → String → ω → Except PluginlibException CollisionPluginPtr × ω
  initializePlugin : CollisionPlugin → PlanningScenePtr → ω → Bool × ω
  getCollisionDetectorName : PlanningScene → ω → String

/-- An `rclcpp::Node`, reduced to what `setupScene` reads: its string-valued parameters. -/
structure Node where
  parameters : List (String × String)
  deriving DecidableEq, Repr

/-- The type `rclcpp::Node::SharedPtr`; `none` is the null handle. -/
abbrev NodePtr := Option Node

/-- The method `node->has_parameter(name)`. -/
def Node.has_parameter (node : Node) (name : String) : Bool :=
  (node.parameters.lookup name).isSome

/-- The method `node->get_parameter(name, parameter)`: the new content of the
out-argument `parameter`, which is left alone when the parameter does not exist. -/
def Node.get_parameter (node : Node) (name : String) (parameter : String) : String :=
  match node.parameters.lookup name with
  | some value => value
  | none => parameter

/-- The type `std::map<std::string, CollisionPluginPtr>` of `plugins_`. -/
abbrev PluginMap := List (String × CollisionPluginPtr)

/-- The lookup `plugins_.find(name)`: `none` is `plugins_.end()`, `some h` is an
iterator whose `second` is the handle `h` (which may itself be null). -/
def PluginMap.find : PluginMap → String → Option CollisionPluginPtr
  | [], _ => none
  | (key, handle) :: rest, name => if key = name then some handle else PluginMap.find rest name

/-- The assignment `plugins_[name] = plugin`: overwrite the entry of `name`, or add one. -/
def PluginMap.assign : PluginMap → String → CollisionPluginPtr → PluginMap
  | [], name, plugin => [(name, plugin)]
  | (key, handle) :: rest, name, plugin =>
    if key = name then (key, plugin) :: rest else (key, handle) :: PluginMap.assign rest name plugin

/-- The members of `CollisionPluginLoaderImpl` (`loader_`, `plugins_`), together
with the world of the collaborators and the trace of the calls made so far. -/
structure CollisionPluginLoaderImpl (ω : Type) where
  loader_ : Option ClassLoader
  plugins_ : PluginMap
  world : ω
  trace : List Event

/-- Append one event to the trace. -/
def CollisionPluginLoaderImpl.emit {ω : Type} (self : CollisionPluginLoaderImpl ω) (e : Event) :
    CollisionPluginLoaderImpl ω :=
  { self with trace := self.trace ++ [e] }

/-! ## Operations -/

/-- The constructor `CollisionPluginLoaderImpl()`: try to build the class loader,
and on a `PluginlibException` log it and leave `loader_` null. -/
def CollisionPluginLoaderImpl.new {ω : Type} (H : Host ω) (w : ω) : CollisionPluginLoaderImpl ω :=
  match H.newClassLoader "moveit_core" "collision_detection::CollisionPlugin" w with
  | (.ok loader, w1) =>
    { loader_ := some loader, plugins_ := [], world := w1,
      trace := [.newClassLoader "moveit_core" "collision_detection::CollisionPlugin" true] }
  | (.error e, w1) =>
    { loader_ := none, plugins_ := [], world := w1,
      trace := [.newClassLoader "moveit_core" "collision_detection::CollisionPlugin" false,
                .log .error ("Unable to construct colllision plugin loader. Error: " ++ e.what)] }

/-- The method `CollisionPluginLoaderImpl::load(name)`. -/
def CollisionPluginLoaderImpl.load {ω : Type} (H : Host ω) (name : String)
    (self : CollisionPluginLoaderImpl ω) :
    Except Fault (CollisionPluginPtr × CollisionPluginLoaderImpl ω) :=
  match self.loader_ with
  | none => .error .nullDereference
  | some loader =>
    match H.createUniqueInstance loader name self.world with
    | (.ok plugin, w1) =>
      .ok (plugin,
        { self with
          plugins_ := self.plugins_.assign name plugin
          world := w1
          trace := self.trace ++ [.createUniqueInstance name (some plugin)] })
    | (.error ex, w1) =>
      .ok (none,
        { self with
          world := w1
          trace := self.trace ++ [.createUniqueInstance name none,
            .log .error ("Exception while loading " ++ name ++ " : " ++ ex.what)] })

/-- The call `plugin->initialize(scene)` on a non-null plugin, with its result returned. -/
def CollisionPluginLoaderImpl.callInitialize {ω : Type} (H : Host ω) (plugin : CollisionPlugin)
    (scene : PlanningScenePtr) (self : CollisionPluginLoaderImpl ω) :
    Bool × CollisionPluginLoaderImpl ω :=
  ((H.initializePlugin plugin scene self.world).1,
    { self with
      world := (H.initializePlugin plugin scene self.world).2
      trace := self.trace ++
        [.initializePlugin plugin scene (H.initializePlugin plugin scene self.world).1] })

/-- The method `CollisionPluginLoaderImpl::activate(name, scene)`. -/
def CollisionPluginLoaderImpl.activate {ω : Type} (H : Host ω) (name : String)
    (scene : PlanningScenePtr) (self : CollisionPluginLoaderImpl ω) :
    Except Fault (Bool × CollisionPluginLoaderImpl ω) :=
  match self.plugins_.find name with
  | none =>
    match CollisionPluginLoaderImpl.load H name self with
    | .error f => .error f
    | .ok (some plugin, self1) => .ok (CollisionPluginLoaderImpl.callInitialize H plugin scene self1)
    | .ok (none, self1) => .ok (false, self1)
  | some (some plugin) => .ok (CollisionPluginLoaderImpl.callInitialize H plugin scene self)
  | some none => .ok (false, self)

/-- The method `CollisionPluginLoader::activate(name, scene)`, which forwards to
the implementation object (`loader_` of `CollisionPluginLoader` is never null). -/
def CollisionPluginLoader.activate {ω : Type} (H : Host ω) (name : String)
    (scene : PlanningScenePtr) (self : CollisionPluginLoaderImpl ω) :
    Except Fault (Bool × CollisionPluginLoaderImpl ω) :=
  CollisionPluginLoaderImpl.activate H name scene self

/-- Lines 138 to 145 of `setupScene`: what happens once `collision_detector_name`
has been read from a parameter. -/
def CollisionPluginLoader.setupScene_tail {ω : Type} (H : Host ω) (sc : PlanningScene)
    (collision_detector_name : String) (self : CollisionPluginLoaderImpl ω) :
    Except Fault (CollisionPluginLoaderImpl ω) :=
  if collision_detector_name.isEmpty then
    .ok self
  else
    match CollisionPluginLoader.activate H collision_detector_name (some sc) self with
    | .error f => .error f
    | .ok (_, self1) =>
      .ok (self1.emit (.log .info
        ("Using collision detector: " ++ H.getCollisionDetectorName sc self1.world)))

/-- The method `CollisionPluginLoader::setupScene(node, scene)`. -/
def CollisionPluginLoader.setupScene {ω : Type} (H : Host ω) (node : NodePtr)
    (scene : PlanningScenePtr) (self : CollisionPluginLoaderImpl ω) :
    Except Fault (CollisionPluginLoaderImpl ω) :=
  match scene with
  | none => .ok (self.emit (.log .warn "Cannot setup scene, PlanningScenePtr is null."))
  | some sc =>
    match node with
    | none => .error .nullDereference
    | some nd =>
      let collision_detector_name : String := ""
      let self1 := self.emit (.has_parameter "collision_detector")
      if nd.has_parameter "collision_detector" then
        CollisionPluginLoader.setupScene_tail H sc
          (nd.get_parameter "collision_detector" collision_detector_name)
          (self1.emit (.get_parameter "collision_detector"))
      else
        let self2 := self1.emit (.has_parameter "/move_group/collision_detector")
        if nd.has_parameter "/move_group/collision_detector" then
          CollisionPluginLoader.setupScene_tail H sc
            (nd.get_parameter "/move_group/collision_detector" collision_detector_name)
            (self2.emit (.get_parameter "/move_group/collision_detector"))
        else
          .ok self2

/-! ## Sequences of calls -/

/-- One call of a public method of `CollisionPluginLoader`. -/
inductive Call where
  | activate (name : String) (scene : PlanningScenePtr)
  | setupScene (node : NodePtr) (scene : PlanningScenePtr)
  deriving DecidableEq, Repr

/-- The state after one public call (the boolean `activate` returns is dropped). -/
def Call.run {ω : Type} (H : Host ω) (c : Call) (self : CollisionPluginLoaderImpl ω) :
    Except Fault (CollisionPluginLoaderImpl ω) :=
  match c with
  | .activate name scene =>
    match CollisionPluginLoader.activate H name scene self with
    | .error f => .error f
    | .ok (_, self1) => .ok self1
  | .setupScene node scene => CollisionPluginLoader.setupScene H node scene self

/-- The state after a sequence of public calls, made one after the other; a
fault in one of them ends the run. -/
def runCalls {ω : Type} (H : Host ω) : List Call → CollisionPluginLoaderImpl ω →
    Except Fault (CollisionPluginLoaderImpl ω)
  | [], self => .ok self
  | c :: rest, self =>
    match c.run H self with
    | .error f => .error f
    | .ok self1 => runCalls H rest self1

/-- How many times the trace records that `createUniqueInstance(name)` returned
a handle (rather than raising). -/
def constructions (name : String) (trace : List Event) : Nat :=
  trace.countP (fun e =>
    match e with
    | .createUniqueInstance n (some _) => decide (n = name)
    | _ => false)

/-- How many times the trace records a call of `createUniqueInstance`, for any name. -/
def constructionCalls (trace : List Event) : Nat :=
  trace.countP (fun e =>
    match e with
    | .createUniqueInstance _ _ => true
    | _ => false)

/-- How many times the trace records a call of `initialize` on a plugin. -/
def initializeCalls (trace : List Event) : Nat :=
  trace.countP (fun e =>
    match e with
    | .initializePlugin _ _ _ => true
    | _ => false)

/-- How many times the trace records a read of a node parameter. -/
def parameterReads (trace : List Event) : Nat :=
  trace.countP (fun e =>
    match e with
    | .has_parameter _ => true
    | .get_parameter _ => true
    | _ => false)

/-! ## The selection rule of the specification -/

/-- The plugin name `setupScene` is specified to pick: the value of
`collision_detector` if that parameter exists, otherwise the value of
`/move_group/collision_detector` if that one exists, otherwise none. -/
def specSelectedName (parameters : List (String × String)) : Option String :=
  match parameters.lookup "collision_detector" with
  | some value => some value
  | none => parameters.lookup "/move_group/collision_detector"

/-- The trace events of the parameter reads `setupScene` makes for a parameter set. -/
def parameterEvents (parameters : List (String × String)) : List Event :=
  match parameters.lookup "collision_detector" with
  | some _ => [.has_parameter "collision_detector", .get_parameter "collision_detector"]
  | none =>
    match parameters.lookup "/move_group/collision_detector" with
    | some _ => [.has_parameter "collision_detector",
                 .has_parameter "/move_group/collision_detector",
                 .get_parameter "/move_group/collision_detector"]
    | none => [.has_parameter "collision_detector",
               .has_parameter "/move_group/collision_detector"]

/-! ## A concrete host, for evaluating the code -/

/-- A host over a counter world: the class loader is built unless the world is
`0`; `createUniqueInstance` raises for the name `"missing"`, returns a null
handle for the name `"null"`, and otherwise hands out the counter as a fresh
plugin; `initialize` succeeds on even plugins. -/
def exampleHost : Host Nat where
  newClassLoader := fun _ _ w =>
    if w = 0 then (.error { what := "no plugin description" }, w) else (.ok 7, w)
  createUniqueInstance := fun _ name w =>
    if name = "missing" then (.error { what := "class not found" }, w)
    else if name = "null" then (.ok none, w)
    else (.ok (some w), w + 1)
  initializePlugin := fun p _ w => (p % 2 == 0, w)
  getCollisionDetectorName := fun _ _ => "FCL"

/-- A host whose `createUniqueInstance` never returns a null handle: as
`exampleHost`, without the name `"null"`. -/
def strictHost : Host Nat where
  newClassLoader := fun _ _ w =>
    if w = 0 then (.error { what := "no plugin description" }, w) else (.ok 7, w)
  createUniqueInstance := fun _ name w =>
    if name = "missing" then (.error { what := "class not found" }, w)
    else (.ok (some w), w + 1)
  initializePlugin := fun p _ w => (p % 2 == 0, w)
  getCollisionDetectorName := fun _ _ => "FCL"

/-- A loader state with one cached plugin, `"fcl"` bound to plugin `4`. -/
def exampleState : CollisionPluginLoaderImpl Nat :=
  { loader_ := some 7, plugins_ := [("fcl", some 4)], world := 10, trace := [] }

/-- The effect of one public call on the members and on the count of
constructions: `loader_` is kept, and either `plugins_` and the counts are kept,
or one name that was not a key was given the handle the host returned for it,
and that name counts one more construction. -/
def CacheStep {ω : Type} (H : Host ω) (self self1 : CollisionPluginLoaderImpl ω) : Prop :=
  self1.loader_ = self.loader_ ∧
  ((self1.plugins_ = self.plugins_
      ∧ ∀ n, constructions n self1.trace = constructions n self.trace)
    ∨ ∃ name h loader w w1,
        self.plugins_.find name = none
        ∧ self1.plugins_ = self.plugins_.assign name h
        ∧ H.createUniqueInstance loader name w = (.ok h, w1)
        ∧ ∀ n, constructions n self1.trace
            = constructions n self.trace + (if n = name then 1 else 0))

/-- A run of public calls: two activations of `"fcl"`, a `setupScene` that selects
`"hybrid"`, and an activation of a name the host cannot construct. -/
def exampleCalls : List Call :=
  [.activate "fcl" (some 1),
   .setupScene (some { parameters := [("collision_detector", "hybrid")] }) (some 1),
   .activate "missing" none,
   .activate "fcl" none]

/-- The state `exampleCalls` leads to on `strictHost`, from a loader constructed in world `5`. -/
def exampleFinal : CollisionPluginLoaderImpl Nat :=
  { loader_ := some 7
    plugins_ := [("fcl", some 5), ("hybrid", some 6)]
    world := 7
    trace :=
      [.newClassLoader "moveit_core" "collision_detection::CollisionPlugin" true,
       .createUniqueInstance "fcl" (some (some 5)),
       .initializePlugin 5 (some 1) false,
       .has_parameter "collision_detector",
       .get_parameter "collision_detector",
       .createUniqueInstance "hybrid" (some (some 6)),
       .initializePlugin 6 (some 1) true,
       .log .info "Using collision detector: FCL",
       .createUniqueInstance "missing" none,
       .log .error "Exception while loading missing : class not found",
       .initializePlugin 5 none false] }

/-! ## Lemmas on the plugin map -/

theorem PluginMap.find_assign_self (m : PluginMap) (name : String) (plugin : CollisionPluginPtr) :
    (m.assign name plugin).find name = some plugin := by
  induction m with
  | nil => simp [PluginMap.assign, PluginMap.find]
  | cons e rest ih =>
    obtain ⟨key, handle⟩ := e
    by_cases h : key = name
    · simp [PluginMap.assign, PluginMap.find, h]
    · simp [PluginMap.assign, PluginMap.find, h, ih]

theorem PluginMap.find_assign_of_ne (m : PluginMap) (name other : String)
    (plugin : CollisionPluginPtr) (h : other ≠ name) :
    (m.assign name plugin).find other = m.find other := by
  induction m with
  | nil =>
    have h2 : ¬ name = other := fun e => h e.symm
    simp [PluginMap.assign, PluginMap.find, h2]
  | cons e rest ih =>
    obtain ⟨key, handle⟩ := e
    by_cases hk : key = name
    · subst hk
      have h2 : ¬ key = other := fun e => h e.symm
      simp [PluginMap.assign, PluginMap.find, h2]
    · by_cases hk2 : key = other
      · subst hk2
        simp [PluginMap.assign, PluginMap.find, hk]
      · simp [PluginMap.assign, PluginMap.find, hk, hk2, ih]

theorem PluginMap.mem_assign (m : PluginMap) (name : String) (plugin : CollisionPluginPtr)
    (e : String × CollisionPluginPtr) (he : e ∈ m.assign name plugin) :
    e ∈ m ∨ e.2 = plugin := by
  induction m with
  | nil =>
    simp [PluginMap.assign] at he
    right; rw [he]
  | cons e0 rest ih =>
    obtain ⟨key, handle⟩ := e0
    by_cases hk : key = name
    · simp [PluginMap.assign, hk] at he
      rcases he with he | he
      · right; rw [he]
      · left; exact List.mem_cons_of_mem _ he
    · simp [PluginMap.assign, hk] at he
      rcases he with he | he
      · left; rw [he]; exact List.mem_cons_self _ _
      · rcases ih he with h1 | h1
        · left; exact List.mem_cons_of_mem _ h1
        · right; exact h1

theorem PluginMap.find_mem (m : PluginMap) (name : String) (handle : CollisionPluginPtr)
    (h : m.find name = some handle) : (name, handle) ∈ m := by
  induction m with
  | nil => simp [PluginMap.find] at h
  | cons e0 rest ih =>
    obtain ⟨key, handle0⟩ := e0
    by_cases hk : key = name
    · simp [PluginMap.find, hk] at h
      rw [hk, h]; exact List.mem_cons_self _ _
    · simp [PluginMap.find, hk] at h
      exact List.mem_cons_of_mem _ (ih h)

/-! ## `activate` and `load`, one call -/

theorem CollisionPluginLoaderImpl.load_of_returned {ω : Type} (H : Host ω) (name : String)
    (self : CollisionPluginLoaderImpl ω) (loader : ClassLoader) (h : CollisionPluginPtr) (w1 : ω)
    (hloader : self.loader_ = some loader)
    (hcreate : H.createUniqueInstance loader name self.world = (.ok h, w1)) :
    CollisionPluginLoaderImpl.load H name self =
      .ok (h,
        { loader_ := self.loader_
          plugins_ := self.plugins_.assign name h
          world := w1
          trace := self.trace ++ [.createUniqueInstance name (some h)] }) := by
  simp [CollisionPluginLoaderImpl.load, hloader, hcreate]

theorem CollisionPluginLoaderImpl.load_of_raised {ω : Type} (H : Host ω) (name : String)
    (self : CollisionPluginLoaderImpl ω) (loader : ClassLoader) (ex : PluginlibException) (w1 : ω)
    (hloader : self.loader_ = some loader)
    (hcreate : H.createUniqueInstance loader name self.world = (.error ex, w1)) :
    CollisionPluginLoaderImpl.load H name self =
      .ok (none,
        { loader_ := self.loader_
          plugins_ := self.plugins_
          world := w1
          trace := self.trace ++
            [.createUniqueInstance name none,
             .log .error ("Exception while loading " ++ name ++ " : " ++ ex.what)] }) := by
  simp [CollisionPluginLoaderImpl.load, hloader, hcreate]


theorem CollisionPluginLoaderImpl.activate_of_raised {ω : Type} (H : Host ω) (name : String)
    (scene : PlanningScenePtr) (self : CollisionPluginLoaderImpl ω) (loader : ClassLoader)
    (ex : PluginlibException) (w1 : ω)
    (hfind : self.plugins_.find name = none) (hloader : self.loader_ = some loader)
    (hcreate : H.createUniqueInstance loader name self.world = (.error ex, w1)) :
    CollisionPluginLoaderImpl.activate H name scene self =
      .ok (false,
        { loader_ := self.loader_
          plugins_ := self.plugins_
          world := w1
          trace := self.trace ++
            [.createUniqueInstance name none,
             .log .error ("Exception while loading " ++ name ++ " : " ++ ex.what)] }) := by
  simp only [CollisionPluginLoaderImpl.activate, hfind,
    CollisionPluginLoaderImpl.load_of_raised H name self loader ex w1 hloader hcreate]

theorem CollisionPluginLoaderImpl.activate_of_returned_null {ω : Type} (H : Host ω)
    (name : String) (scene : PlanningScenePtr) (self : CollisionPluginLoaderImpl ω)
    (loader : ClassLoader) (w1 : ω)
    (hfind : self.plugins_.find name = none) (hloader : self.loader_ = some loader)
    (hcreate : H.createUniqueInstance loader name self.world = (.ok none, w1)) :
    CollisionPluginLoaderImpl.activate H name scene self =
      .ok (false,
        { loader_ := self.loader_
          plugins_ := self.plugins_.assign name none
          world := w1
          trace := self.trace ++ [.createUniqueInstance name (some none)] }) := by
  simp only [CollisionPluginLoaderImpl.activate, hfind,
    CollisionPluginLoaderImpl.load_of_returned H name self loader none w1 hloader hcreate]

theorem CollisionPluginLoaderImpl.activate_of_returned {ω : Type} (H : Host ω)
    (name : String) (scene : PlanningScenePtr) (self : CollisionPluginLoaderImpl ω)
    (loader : ClassLoader) (p : CollisionPlugin) (w1 : ω)
    (hfind : self.plugins_.find name = none) (hloader : self.loader_ = some loader)
    (hcreate : H.createUniqueInstance loader name self.world = (.ok (some p), w1)) :
    CollisionPluginLoaderImpl.activate H name scene self =
      .ok ((H.initializePlugin p scene w1).1,
        { loader_ := self.loader_
          plugins_ := self.plugins_.assign name (some p)
          world := (H.initializePlugin p scene w1).2
          trace := self.trace ++
            [.createUniqueInstance name (some (some p)),
             .initializePlugin p scene (H.initializePlugin p scene w1).1] }) := by
  simp [CollisionPluginLoaderImpl.activate, hfind, CollisionPluginLoaderImpl.callInitialize,
    CollisionPluginLoaderImpl.load_of_returned H name self loader (some p) w1 hloader hcreate]

theorem CollisionPluginLoaderImpl.activate_of_cached {ω : Type} (H : Host ω)
    (name : String) (scene : PlanningScenePtr) (self : CollisionPluginLoaderImpl ω)
    (p : CollisionPlugin) (hfind : self.plugins_.find name = some (some p)) :
    CollisionPluginLoaderImpl.activate H name scene self =
      .ok ((H.initializePlugin p scene self.world).1,
        { loader_ := self.loader_
          plugins_ := self.plugins_
          world := (H.initializePlugin p scene self.world).2
          trace := self.trace ++
            [.initializePlugin p scene (H.initializePlugin p scene self.world).1] }) := by
  simp [CollisionPluginLoaderImpl.activate, CollisionPluginLoaderImpl.callInitialize, hfind]

/-- Claim C1. When `name` is not a key of the cache and the host class loader's
`createUniqueInstance(name)` returns the plugin `p`, `activate(name, scene)`
asks the host once, calls `p->initialize(scene)` exactly once, returns exactly
what that call returned, and leaves a cache that maps `name` to `p`. -/
theorem activate_uncached_constructed {ω : Type} (H : Host ω) (name : String)
    (scene : PlanningScenePtr) (self : CollisionPluginLoaderImpl ω) (loader : ClassLoader)
    (p : CollisionPlugin) (w1 : ω)
    (hfind : self.plugins_.find name = none)
    (hloader : self.loader_ = some loader)
    (hcreate : H.createUniqueInstance loader name self.world = (.ok (some p), w1)) :
    CollisionPluginLoaderImpl.activate H name scene self =
        .ok ((H.initializePlugin p scene w1).1,
          { loader_ := self.loader_
            plugins_ := self.plugins_.assign name (some p)
            world := (H.initializePlugin p scene w1).2
            trace := self.trace ++
              [.createUniqueInstance name (some (some p)),
               .initializePlugin p scene (H.initializePlugin p scene w1).1] })
      ∧ (self.plugins_.assign name (some p)).find name = some (some p) := by
  refine ⟨?_, PluginMap.find_assign_self _ _ _⟩
  simp [CollisionPluginLoaderImpl.activate, CollisionPluginLoaderImpl.load,
    CollisionPluginLoaderImpl.callInitialize, hfind, hloader, hcreate]

/-- Evaluation on `exampleHost`: `"hybrid"` is not cached, the host hands
out plugin `10`, whose `initialize` returns `true`. -/
theorem activate_uncached_constructed_witness :
    CollisionPluginLoaderImpl.activate exampleHost "hybrid" (some 1) exampleState =
        .ok (true,
          { loader_ := some 7
            plugins_ := [("fcl", some 4), ("hybrid", some 10)]
            world := 11
            trace := [.createUniqueInstance "hybrid" (some (some 10)),
                      .initializePlugin 10 (some 1) true] })
      ∧ PluginMap.find [("fcl", some 4), ("hybrid", some 10)] "hybrid" = some (some 10) :=
  activate_uncached_constructed exampleHost "hybrid" (some 1) exampleState 7 10 11
    (by decide) rfl rfl

/-- Claim C2. When `name` is already a key of the cache, bound to the instance
`p`, `activate(name, scene)` constructs nothing, calls `initialize(scene)` on
that cached `p`, returns exactly what the call returned, and leaves `plugins_`
(and `loader_`) as they were.  This holds whether or not `loader_` is null. -/
theorem activate_cached {ω : Type} (H : Host ω) (name : String)
    (scene : PlanningScenePtr) (self : CollisionPluginLoaderImpl ω) (p : CollisionPlugin)
    (hfind : self.plugins_.find name = some (some p)) :
    CollisionPluginLoaderImpl.activate H name scene self =
      .ok ((H.initializePlugin p scene self.world).1,
        { loader_ := self.loader_
          plugins_ := self.plugins_
          world := (H.initializePlugin p scene self.world).2
          trace := self.trace ++
            [.initializePlugin p scene (H.initializePlugin p scene self.world).1] }) := by
  simp [CollisionPluginLoaderImpl.activate, CollisionPluginLoaderImpl.callInitialize, hfind]

/-- Evaluation on `exampleHost`: `"fcl"` is cached with plugin `4`. -/
theorem activate_cached_witness :
    CollisionPluginLoaderImpl.activate exampleHost "fcl" (some 1) exampleState =
      .ok (true,
        { loader_ := some 7
          plugins_ := [("fcl", some 4)]
          world := 10
          trace := [.initializePlugin 4 (some 1) true] }) :=
  activate_cached exampleHost "fcl" (some 1) exampleState 4 (by decide)

/-- Claim C3. When `name` is not a key of the cache and the host class loader's
`createUniqueInstance(name)` raises a `PluginlibException`, `activate(name,
scene)` returns `false` (it does not fault), calls no `initialize`, only logs
the error, and leaves `plugins_` exactly as it was. -/
theorem activate_uncached_failed {ω : Type} (H : Host ω) (name : String)
    (scene : PlanningScenePtr) (self : CollisionPluginLoaderImpl ω) (loader : ClassLoader)
    (ex : PluginlibException) (w1 : ω)
    (hfind : self.plugins_.find name = none)
    (hloader : self.loader_ = some loader)
    (hcreate : H.createUniqueInstance loader name self.world = (.error ex, w1)) :
    CollisionPluginLoaderImpl.activate H name scene self =
        .ok (false,
          { loader_ := self.loader_
            plugins_ := self.plugins_
            world := w1
            trace := self.trace ++
              [.createUniqueInstance name none,
               .log .error ("Exception while loading " ++ name ++ " : " ++ ex.what)] })
      ∧ initializeCalls (self.trace ++
          [.createUniqueInstance name none,
           .log .error ("Exception while loading " ++ name ++ " : " ++ ex.what)])
          = initializeCalls self.trace := by
  constructor
  · simp [CollisionPluginLoaderImpl.activate, CollisionPluginLoaderImpl.load, hfind, hloader,
      hcreate]
  · simp [initializeCalls]

/-- Evaluation on `exampleHost`, whose class loader raises for `"missing"`. -/
theorem activate_uncached_failed_witness :
    CollisionPluginLoaderImpl.activate exampleHost "missing" (some 1) exampleState =
        .ok (false,
          { loader_ := some 7
            plugins_ := [("fcl", some 4)]
            world := 10
            trace := [.createUniqueInstance "missing" none,
                      .log .error "Exception while loading missing : class not found"] })
      ∧ initializeCalls
          [.createUniqueInstance "missing" none,
           .log .error "Exception while loading missing : class not found"]
          = initializeCalls [] :=
  activate_uncached_failed exampleHost "missing" (some 1) exampleState 7
    { what := "class not found" } 10 (by decide) rfl rfl

/-- Claim C7. The host class loader's `createUniqueInstance` either raises or
returns a non-null plugin (the contract of `pluginlib::ClassLoader`).  Then for
every cache and every name, with the class loader in place, `load(name)`
returns; when construction succeeds with plugin `p` it returns `p` and a cache
that maps `name` to `p` while every other key keeps its value; when
construction raises it returns the null handle and the cache is unchanged; and
`load` never inserts a null handle: every entry of the new cache that was not
in the old one has a non-null handle. -/
theorem load_frame {ω : Type} (H : Host ω)
    (hH : ∀ loader name w w1, H.createUniqueInstance loader name w ≠ (.ok none, w1))
    (name : String) (self : CollisionPluginLoaderImpl ω) (loader : ClassLoader)
    (hloader : self.loader_ = some loader) :
    (∃ r self1, CollisionPluginLoaderImpl.load H name self = .ok (r, self1))
    ∧ (∀ p w1, H.createUniqueInstance loader name self.world = (.ok (some p), w1) →
      CollisionPluginLoaderImpl.load H name self =
          .ok (some p,
            { loader_ := self.loader_
              plugins_ := self.plugins_.assign name (some p)
              world := w1
              trace := self.trace ++ [.createUniqueInstance name (some (some p))] })
        ∧ (self.plugins_.assign name (some p)).find name = some (some p)
        ∧ ∀ other, other ≠ name →
            (self.plugins_.assign name (some p)).find other = self.plugins_.find other)
    ∧ (∀ ex w1, H.createUniqueInstance loader name self.world = (.error ex, w1) →
      CollisionPluginLoaderImpl.load H name self =
          .ok (none,
            { loader_ := self.loader_
              plugins_ := self.plugins_
              world := w1
              trace := self.trace ++
                [.createUniqueInstance name none,
                 .log .error ("Exception while loading " ++ name ++ " : " ++ ex.what)] }))
    ∧ (∀ r self1, CollisionPluginLoaderImpl.load H name self = .ok (r, self1) →
      ∀ e ∈ self1.plugins_, e ∉ self.plugins_ → e.2 ≠ none) := by
  refine ⟨?_, ?_, ?_, ?_⟩
  · rcases hc : H.createUniqueInstance loader name self.world with ⟨res, w1⟩
    cases res with
    | error ex =>
      exact ⟨_, _, CollisionPluginLoaderImpl.load_of_raised H name self loader ex w1 hloader hc⟩
    | ok h =>
      exact ⟨_, _, CollisionPluginLoaderImpl.load_of_returned H name self loader h w1 hloader hc⟩
  · intro p w1 hcreate
    exact ⟨CollisionPluginLoaderImpl.load_of_returned H name self loader (some p) w1 hloader
        hcreate,
      PluginMap.find_assign_self _ _ _,
      fun other hne => PluginMap.find_assign_of_ne _ _ _ _ hne⟩
  · intro ex w1 hcreate
    exact CollisionPluginLoaderImpl.load_of_raised H name self loader ex w1 hloader hcreate
  · intro r self1 hload e he hnew
    rcases hc : H.createUniqueInstance loader name self.world with ⟨res, w1⟩
    cases res with
    | error ex =>
      rw [CollisionPluginLoaderImpl.load_of_raised H name self loader ex w1 hloader hc] at hload
      simp only [Except.ok.injEq, Prod.mk.injEq] at hload
      rw [← hload.2] at he
      exact absurd he hnew
    | ok h =>
      rw [CollisionPluginLoaderImpl.load_of_returned H name self loader h w1 hloader hc] at hload
      simp only [Except.ok.injEq, Prod.mk.injEq] at hload
      rw [← hload.2] at he
      rcases PluginMap.mem_assign _ _ _ _ he with h1 | h1
      · exact absurd h1 hnew
      · rw [h1]
        intro hnone
        rw [hnone] at hc
        exact hH loader name self.world w1 hc

/-- Evaluation on `strictHost` and `exampleState`: `load("hybrid")` succeeds
with plugin `10` and adds the one entry `("hybrid", some 10)`, which is not a
null handle, while `"fcl"` keeps its plugin; `load("missing")` raises inside,
returns the null handle and leaves the cache as it was. -/
theorem load_frame_witness :
    (CollisionPluginLoaderImpl.load strictHost "hybrid" exampleState =
        .ok (some 10,
          { loader_ := some 7
            plugins_ := [("fcl", some 4), ("hybrid", some 10)]
            world := 11
            trace := [.createUniqueInstance "hybrid" (some (some 10))] })
      ∧ PluginMap.find [("fcl", some 4), ("hybrid", some 10)] "hybrid" = some (some 10)
      ∧ PluginMap.find [("fcl", some 4), ("hybrid", some 10)] "fcl" = some (some 4))
    ∧ CollisionPluginLoaderImpl.load strictHost "missing" exampleState =
        .ok (none,
          { loader_ := some 7
            plugins_ := [("fcl", some 4)]
            world := 10
            trace := [.createUniqueInstance "missing" none,
                      .log .error "Exception while loading missing : class not found"] })
    ∧ (("hybrid", some 10) : String × CollisionPluginPtr).2 ≠ none :=
  have hH : ∀ (loader : ClassLoader) (name : String) (w w1 : Nat),
      strictHost.createUniqueInstance loader name w ≠ (.ok none, w1) := by
    intro loader name w w1 h
    simp only [strictHost] at h
    split at h <;> simp at h
  ⟨⟨((load_frame strictHost hH "hybrid" exampleState 7 rfl).2.1 10 11 rfl).1,
      ((load_frame strictHost hH "hybrid" exampleState 7 rfl).2.1 10 11 rfl).2.1,
      ((load_frame strictHost hH "hybrid" exampleState 7 rfl).2.1 10 11 rfl).2.2 "fcl"
        (by decide)⟩,
    (load_frame strictHost hH "missing" exampleState 7 rfl).2.2.1
      { what := "class not found" } 10 rfl,
    (load_frame strictHost hH "hybrid" exampleState 7 rfl).2.2.2 (some 10)
      { loader_ := some 7
        plugins_ := [("fcl", some 4), ("hybrid", some 10)]
        world := 11
        trace := [.createUniqueInstance "hybrid" (some (some 10))] }
      rfl ("hybrid", some 10) (by decide) (by decide)⟩

/-- Claim C8, at the failing input. When the construction of the class loader
raised in the constructor (here: `exampleHost` in world `0`), `loader_` is null
and the cache is empty; `activate` of any name, here `"fcl"`, then reaches
`loader_->createUniqueInstance` and dereferences the null handle instead of
returning `false`. -/
theorem activate_faults_without_class_loader :
    (CollisionPluginLoaderImpl.new exampleHost 0).loader_ = none
      ∧ (CollisionPluginLoaderImpl.new exampleHost 0).trace =
          [.newClassLoader "moveit_core" "collision_detection::CollisionPlugin" false,
           .log .error "Unable to construct colllision plugin loader. Error: no plugin description"]
      ∧ CollisionPluginLoaderImpl.activate exampleHost "fcl" (some 1)
          (CollisionPluginLoaderImpl.new exampleHost 0) = .error .nullDereference :=
  ⟨rfl, rfl, rfl⟩

/-- For every host: with a null `loader_`, `activate` of a name that is not
cached dereferences null. -/
theorem activate_uncached_null_loader {ω : Type} (H : Host ω) (name : String)
    (scene : PlanningScenePtr) (self : CollisionPluginLoaderImpl ω)
    (hfind : self.plugins_.find name = none) (hloader : self.loader_ = none) :
    CollisionPluginLoaderImpl.activate H name scene self = .error .nullDereference := by
  simp [CollisionPluginLoaderImpl.activate, CollisionPluginLoaderImpl.load, hfind, hloader]

/-! ## `setupScene` -/

/-- With a scene and a node, `setupScene` reads the parameters as the selection
rule says, and then runs lines 138 to 145 on the selected value, if there is one. -/
theorem CollisionPluginLoader.setupScene_eq {ω : Type} (H : Host ω) (nd : Node)
    (sc : PlanningScene) (self : CollisionPluginLoaderImpl ω) :
    CollisionPluginLoader.setupScene H (some nd) (some sc) self =
      match specSelectedName nd.parameters with
      | none => .ok { self with trace := self.trace ++ parameterEvents nd.parameters }
      | some name =>
        CollisionPluginLoader.setupScene_tail H sc name
          { self with trace := self.trace ++ parameterEvents nd.parameters } := by
  cases h1 : nd.parameters.lookup "collision_detector" with
  | some v =>
    simp [CollisionPluginLoader.setupScene, Node.has_parameter, Node.get_parameter,
      specSelectedName, parameterEvents, CollisionPluginLoaderImpl.emit, h1]
  | none =>
    cases h2 : nd.parameters.lookup "/move_group/collision_detector" with
    | some v =>
      simp [CollisionPluginLoader.setupScene, Node.has_parameter, Node.get_parameter,
        specSelectedName, parameterEvents, CollisionPluginLoaderImpl.emit, h1, h2]
    | none =>
      simp [CollisionPluginLoader.setupScene, Node.has_parameter,
        specSelectedName, parameterEvents, CollisionPluginLoaderImpl.emit, h1, h2]

/-- Claim C4. For a non-null scene and any parameter set of the node, the name
`setupScene` uses is the one the selection rule gives (`collision_detector` if
it exists, else `/move_group/collision_detector` if it exists, else none).  When
that name is not empty, `setupScene` is exactly one call of `activate` with that
name and the given scene, made after the parameter reads and followed by one
log line; when neither parameter exists, `setupScene` only asks for the two
parameters: no `activate`, and `plugins_` is unchanged. -/
theorem setupScene_selects {ω : Type} (H : Host ω) (nd : Node) (sc : PlanningScene)
    (self : CollisionPluginLoaderImpl ω) :
    (∀ name, specSelectedName nd.parameters = some name → name ≠ "" →
      (∀ f, CollisionPluginLoader.activate H name (some sc)
              { self with trace := self.trace ++ parameterEvents nd.parameters } = .error f →
          CollisionPluginLoader.setupScene H (some nd) (some sc) self = .error f)
      ∧ (∀ b self1, CollisionPluginLoader.activate H name (some sc)
              { self with trace := self.trace ++ parameterEvents nd.parameters } = .ok (b, self1) →
          CollisionPluginLoader.setupScene H (some nd) (some sc) self =
            .ok { self1 with
                  trace := self1.trace ++
                    [.log .info
                      ("Using collision detector: " ++ H.getCollisionDetectorName sc self1.world)] }))
    ∧ (specSelectedName nd.parameters = none →
        CollisionPluginLoader.setupScene H (some nd) (some sc) self =
          .ok { loader_ := self.loader_
                plugins_ := self.plugins_
                world := self.world
                trace := self.trace ++
                  [.has_parameter "collision_detector",
                   .has_parameter "/move_group/collision_detector"] }) := by
  constructor
  · intro name hsel hne
    have hempty : name.isEmpty = false := by
      cases hb : name.isEmpty with
      | false => rfl
      | true => exact absurd ((String.isEmpty_iff name).mp hb) hne
    rw [CollisionPluginLoader.setupScene_eq, hsel]
    constructor
    · intro f hact
      simp [CollisionPluginLoader.setupScene_tail, hempty, hact]
    · intro b self1 hact
      simp [CollisionPluginLoader.setupScene_tail, hempty, hact, CollisionPluginLoaderImpl.emit]
  · intro hsel
    rw [CollisionPluginLoader.setupScene_eq, hsel]
    have h1 : nd.parameters.lookup "collision_detector" = none := by
      cases h : nd.parameters.lookup "collision_detector" with
      | none => rfl
      | some v => simp [specSelectedName, h] at hsel
    have h2 : nd.parameters.lookup "/move_group/collision_detector" = none := by
      simpa [specSelectedName, h1] using hsel
    simp [parameterEvents, h1, h2]

/-- Evaluation on `exampleHost`: the node has only the fallback parameter,
with value `"hybrid"`, and `setupScene` activates `"hybrid"`; with no parameter
at all it only looks for the two names. -/
theorem setupScene_selects_witness :
    CollisionPluginLoader.setupScene exampleHost
        (some { parameters := [("/move_group/collision_detector", "hybrid")] }) (some 1)
        exampleState =
      .ok { loader_ := some 7
            plugins_ := [("fcl", some 4), ("hybrid", some 10)]
            world := 11
            trace := [.has_parameter "collision_detector",
                      .has_parameter "/move_group/collision_detector",
                      .get_parameter "/move_group/collision_detector",
                      .createUniqueInstance "hybrid" (some (some 10)),
                      .initializePlugin 10 (some 1) true,
                      .log .info "Using collision detector: FCL"] }
    ∧ CollisionPluginLoader.setupScene exampleHost (some { parameters := [] }) (some 1)
        exampleState =
      .ok { loader_ := some 7
            plugins_ := [("fcl", some 4)]
            world := 10
            trace := [.has_parameter "collision_detector",
                      .has_parameter "/move_group/collision_detector"] } :=
  ⟨((setupScene_selects exampleHost
        { parameters := [("/move_group/collision_detector", "hybrid")] } 1 exampleState).1
      "hybrid" rfl (by decide)).2 true
      { loader_ := some 7
        plugins_ := [("fcl", some 4), ("hybrid", some 10)]
        world := 11
        trace := [.has_parameter "collision_detector",
                  .has_parameter "/move_group/collision_detector",
                  .get_parameter "/move_group/collision_detector",
                  .createUniqueInstance "hybrid" (some (some 10)),
                  .initializePlugin 10 (some 1) true] } rfl,
   (setupScene_selects exampleHost { parameters := [] } 1 exampleState).2 rfl⟩

/-- Claim C5. For a non-null scene, when the parameter `setupScene` selects has the
empty string as value, `setupScene` returns after the parameter reads: it asks
the host for no construction, calls no `initialize`, and leaves `plugins_` (and
the world) unchanged.  In particular, when `collision_detector` exists and is
empty, `/move_group/collision_detector` is not even looked at, whatever its value. -/
theorem setupScene_empty_name {ω : Type} (H : Host ω) (nd : Node) (sc : PlanningScene)
    (self : CollisionPluginLoaderImpl ω) :
    (specSelectedName nd.parameters = some "" →
      CollisionPluginLoader.setupScene H (some nd) (some sc) self =
          .ok { loader_ := self.loader_
                plugins_ := self.plugins_
                world := self.world
                trace := self.trace ++ parameterEvents nd.parameters }
        ∧ constructionCalls (self.trace ++ parameterEvents nd.parameters)
            = constructionCalls self.trace
        ∧ initializeCalls (self.trace ++ parameterEvents nd.parameters)
            = initializeCalls self.trace)
    ∧ (nd.parameters.lookup "collision_detector" = some "" →
      CollisionPluginLoader.setupScene H (some nd) (some sc) self =
          .ok { loader_ := self.loader_
                plugins_ := self.plugins_
                world := self.world
                trace := self.trace ++
                  [.has_parameter "collision_detector", .get_parameter "collision_detector"] }) := by
  have hcount : constructionCalls (self.trace ++ parameterEvents nd.parameters)
        = constructionCalls self.trace
      ∧ initializeCalls (self.trace ++ parameterEvents nd.parameters)
        = initializeCalls self.trace := by
    cases h1 : nd.parameters.lookup "collision_detector" <;>
      cases h2 : nd.parameters.lookup "/move_group/collision_detector" <;>
      simp [constructionCalls, initializeCalls, parameterEvents, h1, h2, List.countP_append,
        List.countP_cons]
  constructor
  · intro hsel
    refine ⟨?_, hcount⟩
    have hempty : "".isEmpty = true := by decide
    rw [CollisionPluginLoader.setupScene_eq, hsel]
    simp [CollisionPluginLoader.setupScene_tail, hempty]
  · intro h1
    have hsel : specSelectedName nd.parameters = some "" := by simp [specSelectedName, h1]
    have hempty : "".isEmpty = true := by decide
    rw [CollisionPluginLoader.setupScene_eq, hsel]
    simp [CollisionPluginLoader.setupScene_tail, parameterEvents, h1, hempty]

/-- Evaluation on `exampleHost`: `collision_detector` is empty and the
fallback parameter names a loadable plugin, which is not used. -/
theorem setupScene_empty_name_witness :
    CollisionPluginLoader.setupScene exampleHost
        (some { parameters := [("/move_group/collision_detector", "hybrid"),
                               ("collision_detector", "")] })
        (some 1) exampleState =
      .ok { loader_ := some 7
            plugins_ := [("fcl", some 4)]
            world := 10
            trace := [.has_parameter "collision_detector", .get_parameter "collision_detector"] } :=
  (setupScene_empty_name exampleHost
      { parameters := [("/move_group/collision_detector", "hybrid"), ("collision_detector", "")] }
      1 exampleState).2 rfl

/-- Claim C6. With a null scene, `setupScene` returns after one warning, for every
node (a null node included) and every parameter set: no parameter is read, the
host constructs nothing, no `initialize` is called, and `loader_`, `plugins_`
and the world are unchanged. -/
theorem setupScene_null_scene {ω : Type} (H : Host ω) (node : NodePtr)
    (self : CollisionPluginLoaderImpl ω) :
    CollisionPluginLoader.setupScene H node none self =
        .ok { loader_ := self.loader_
              plugins_ := self.plugins_
              world := self.world
              trace := self.trace ++
                [.log .warn "Cannot setup scene, PlanningScenePtr is null."] }
      ∧ parameterReads (self.trace ++ [.log .warn "Cannot setup scene, PlanningScenePtr is null."])
          = parameterReads self.trace
      ∧ constructionCalls
          (self.trace ++ [.log .warn "Cannot setup scene, PlanningScenePtr is null."])
          = constructionCalls self.trace
      ∧ initializeCalls
          (self.trace ++ [.log .warn "Cannot setup scene, PlanningScenePtr is null."])
          = initializeCalls self.trace := by
  refine ⟨rfl, ?_, ?_, ?_⟩ <;>
    simp [parameterReads, constructionCalls, initializeCalls, List.countP_append,
      List.countP_cons]

/-! ## What one public call can do to the cache -/

theorem constructions_append (n : String) (t u : List Event) :
    constructions n (t ++ u) = constructions n t + constructions n u := by
  simp [constructions, List.countP_append]

theorem constructions_parameterEvents (n : String) (parameters : List (String × String)) :
    constructions n (parameterEvents parameters) = 0 := by
  cases h1 : parameters.lookup "collision_detector" <;>
    cases h2 : parameters.lookup "/move_group/collision_detector" <;>
    simp [constructions, parameterEvents, h1, h2, List.countP_cons]

theorem constructions_log (n : String) (severity : Severity) (text : String) :
    constructions n [.log severity text] = 0 := by
  simp [constructions, List.countP_cons]

theorem CollisionPluginLoaderImpl.activate_step {ω : Type} (H : Host ω) (name : String)
    (scene : PlanningScenePtr) (self self1 : CollisionPluginLoaderImpl ω) (b : Bool)
    (hact : CollisionPluginLoaderImpl.activate H name scene self = .ok (b, self1)) :
    CacheStep H self self1 := by
  cases hfind : self.plugins_.find name with
  | some handle =>
    cases handle with
    | none =>
      simp only [CollisionPluginLoaderImpl.activate, hfind, Except.ok.injEq, Prod.mk.injEq] at hact
      rw [← hact.2]
      exact ⟨rfl, Or.inl ⟨rfl, fun _ => rfl⟩⟩
    | some p =>
      simp only [CollisionPluginLoaderImpl.activate, hfind, Except.ok.injEq,
        CollisionPluginLoaderImpl.callInitialize, Prod.mk.injEq] at hact
      rw [← hact.2]
      refine ⟨rfl, Or.inl ⟨rfl, fun n => ?_⟩⟩
      simp [constructions, List.countP_append, List.countP_cons]
  | none =>
    cases hl : self.loader_ with
    | none =>
      simp [CollisionPluginLoaderImpl.activate, CollisionPluginLoaderImpl.load, hfind, hl] at hact
    | some loader =>
      rcases hc : H.createUniqueInstance loader name self.world with ⟨res, w1⟩
      cases res with
      | error ex =>
        simp only [CollisionPluginLoaderImpl.activate, hfind,
          CollisionPluginLoaderImpl.load_of_raised H name self loader ex w1 hl hc,
          Except.ok.injEq, Prod.mk.injEq] at hact
        rw [← hact.2]
        refine ⟨rfl, Or.inl ⟨rfl, fun n => ?_⟩⟩
        simp [constructions, List.countP_append, List.countP_cons]
      | ok h =>
        cases h with
        | none =>
          simp only [CollisionPluginLoaderImpl.activate, hfind,
            CollisionPluginLoaderImpl.load_of_returned H name self loader none w1 hl hc,
            Except.ok.injEq, Prod.mk.injEq] at hact
          rw [← hact.2]
          refine ⟨rfl, Or.inr ⟨name, none, loader, self.world, w1, hfind, rfl, hc, fun n => ?_⟩⟩
          by_cases hn : n = name
          · subst hn
            simp [constructions, List.countP_append, List.countP_cons]
          · have hn2 : ¬ name = n := fun e => hn e.symm
            simp [constructions, List.countP_append, List.countP_cons, hn, hn2]
        | some p =>
          simp only [CollisionPluginLoaderImpl.activate, hfind,
            CollisionPluginLoaderImpl.load_of_returned H name self loader (some p) w1 hl hc,
            Except.ok.injEq, CollisionPluginLoaderImpl.callInitialize, Prod.mk.injEq] at hact
          rw [← hact.2]
          refine ⟨rfl, Or.inr ⟨name, some p, loader, self.world, w1, hfind, rfl, hc, fun n => ?_⟩⟩
          by_cases hn : n = name
          · subst hn
            simp [constructions, List.countP_append, List.countP_cons]
          · have hn2 : ¬ name = n := fun e => hn e.symm
            simp [constructions, List.countP_append, List.countP_cons, hn, hn2]

theorem CollisionPluginLoader.setupScene_step {ω : Type} (H : Host ω) (node : NodePtr)
    (scene : PlanningScenePtr) (self self1 : CollisionPluginLoaderImpl ω)
    (hset : CollisionPluginLoader.setupScene H node scene self = .ok self1) :
    CacheStep H self self1 := by
  cases scene with
  | none =>
    simp only [CollisionPluginLoader.setupScene, Except.ok.injEq] at hset
    rw [← hset]
    refine ⟨rfl, Or.inl ⟨rfl, fun n => ?_⟩⟩
    simp [CollisionPluginLoaderImpl.emit, constructions, List.countP_append, List.countP_cons]
  | some sc =>
    cases node with
    | none => simp [CollisionPluginLoader.setupScene] at hset
    | some nd =>
      rw [CollisionPluginLoader.setupScene_eq] at hset
      cases hsel : specSelectedName nd.parameters with
      | none =>
        simp only [hsel, Except.ok.injEq] at hset
        rw [← hset]
        refine ⟨rfl, Or.inl ⟨rfl, fun n => ?_⟩⟩
        simp [constructions_append, constructions_parameterEvents]
      | some name =>
        simp only [hsel, CollisionPluginLoader.setupScene_tail] at hset
        cases hempty : name.isEmpty with
        | true =>
          simp only [hempty, if_true, Except.ok.injEq] at hset
          rw [← hset]
          refine ⟨rfl, Or.inl ⟨rfl, fun n => ?_⟩⟩
          simp [constructions_append, constructions_parameterEvents]
        | false =>
          simp only [hempty, Bool.false_eq_true, if_false] at hset
          cases hact : CollisionPluginLoader.activate H name (some sc)
              { self with trace := self.trace ++ parameterEvents nd.parameters } with
          | error f => simp [hact] at hset
          | ok r =>
            obtain ⟨b, s1⟩ := r
            simp only [hact, Except.ok.injEq] at hset
            have hstep := CollisionPluginLoaderImpl.activate_step H name (some sc) _ s1 b hact
            rw [← hset]
            obtain ⟨hl, hcase⟩ := hstep
            refine ⟨hl, ?_⟩
            rcases hcase with ⟨hp, hn⟩ | ⟨nm, h, loader, w, w1, hf, hp, hc, hn⟩
            · refine Or.inl ⟨hp, fun n => ?_⟩
              have := hn n
              simp only [constructions_append, constructions_parameterEvents] at this
              show constructions n (s1.trace ++ [Event.log _ _]) = _
              rw [constructions_append, this, constructions_log]
              simp
            · refine Or.inr ⟨nm, h, loader, w, w1, hf, hp, hc, fun n => ?_⟩
              have := hn n
              simp only [constructions_append, constructions_parameterEvents] at this
              show constructions n (s1.trace ++ [Event.log _ _]) = _
              rw [constructions_append, this, constructions_log]
              simp

theorem Call.run_step {ω : Type} (H : Host ω) (c : Call)
    (self self1 : CollisionPluginLoaderImpl ω) (hrun : c.run H self = .ok self1) :
    CacheStep H self self1 := by
  cases c with
  | activate name scene =>
    cases hact : CollisionPluginLoader.activate H name scene self with
    | error f => simp [Call.run, hact] at hrun
    | ok r =>
      obtain ⟨b, s1⟩ := r
      simp only [Call.run, hact, Except.ok.injEq] at hrun
      rw [← hrun]
      exact CollisionPluginLoaderImpl.activate_step H name scene self s1 b hact
  | setupScene node scene =>
    exact CollisionPluginLoader.setupScene_step H node scene self self1 hrun

/-- A property of loader states that every `CacheStep` keeps holds after any run. -/
theorem runCalls_preserves {ω : Type} (H : Host ω) (P : CollisionPluginLoaderImpl ω → Prop)
    (hstep : ∀ a b, CacheStep H a b → P a → P b) :
    ∀ (calls : List Call) (self self1 : CollisionPluginLoaderImpl ω),
      runCalls H calls self = .ok self1 → P self → P self1 := by
  intro calls
  induction calls with
  | nil =>
    intro self self1 hrun hP
    simp only [runCalls, Except.ok.injEq] at hrun
    rw [← hrun]; exact hP
  | cons c rest ih =>
    intro self self1 hrun hP
    cases hc : c.run H self with
    | error f => simp [runCalls, hc] at hrun
    | ok s1 =>
      simp only [runCalls, hc] at hrun
      exact ih s1 self1 hrun (hstep self s1 (Call.run_step H c self s1 hc) hP)

/-! ## Invariants of the cache over runs of public calls -/

theorem CollisionPluginLoaderImpl.new_plugins {ω : Type} (H : Host ω) (w0 : ω) :
    (CollisionPluginLoaderImpl.new H w0).plugins_ = [] := by
  unfold CollisionPluginLoaderImpl.new
  split <;> rfl

theorem CollisionPluginLoaderImpl.new_constructions {ω : Type} (H : Host ω) (w0 : ω)
    (n : String) : constructions n (CollisionPluginLoaderImpl.new H w0).trace = 0 := by
  unfold CollisionPluginLoaderImpl.new
  split <;> simp [constructions, List.countP_cons]

theorem CacheStep.nonnull {ω : Type} (H : Host ω)
    (hH : ∀ loader name w w1, H.createUniqueInstance loader name w ≠ (.ok none, w1))
    (a b : CollisionPluginLoaderImpl ω) (hstep : CacheStep H a b)
    (ha : ∀ e ∈ a.plugins_, e.2 ≠ none) : ∀ e ∈ b.plugins_, e.2 ≠ none := by
  obtain ⟨_, hcase⟩ := hstep
  rcases hcase with ⟨hp, _⟩ | ⟨nm, h, loader, w, w1, _, hp, hc, _⟩
  · rw [hp]; exact ha
  · intro e he
    rw [hp] at he
    rcases PluginMap.mem_assign _ _ _ _ he with h1 | h1
    · exact ha e h1
    · rw [h1]
      intro hnone
      rw [hnone] at hc
      exact hH loader nm w w1 hc

theorem CacheStep.find_kept {ω : Type} (H : Host ω) (name : String) (handle : CollisionPluginPtr)
    (a b : CollisionPluginLoaderImpl ω) (hstep : CacheStep H a b)
    (ha : a.plugins_.find name = some handle) : b.plugins_.find name = some handle := by
  obtain ⟨_, hcase⟩ := hstep
  rcases hcase with ⟨hp, _⟩ | ⟨nm, h, loader, w, w1, hf, hp, _, _⟩
  · rw [hp]; exact ha
  · have hne : name ≠ nm := by
      intro e
      rw [e, hf] at ha
      exact Option.noConfusion ha
    rw [hp, PluginMap.find_assign_of_ne _ _ _ _ hne]
    exact ha

theorem CacheStep.constructions_bound {ω : Type} (H : Host ω)
    (a b : CollisionPluginLoaderImpl ω) (hstep : CacheStep H a b)
    (ha : ∀ n, constructions n a.trace ≤ 1
      ∧ (a.plugins_.find n = none → constructions n a.trace = 0)) :
    ∀ n, constructions n b.trace ≤ 1
      ∧ (b.plugins_.find n = none → constructions n b.trace = 0) := by
  obtain ⟨_, hcase⟩ := hstep
  rcases hcase with ⟨hp, hn⟩ | ⟨nm, h, loader, w, w1, hf, hp, _, hn⟩
  · intro n
    rw [hp, hn n]
    exact ha n
  · intro n
    rw [hp, hn n]
    by_cases hnn : n = nm
    · subst hnn
      have h0 := (ha n).2 hf
      constructor
      · simp [h0]
      · intro hnone
        rw [PluginMap.find_assign_self] at hnone
        exact Option.noConfusion hnone
    · rw [PluginMap.find_assign_of_ne _ _ _ _ hnn]
      simpa [hnn] using ha n

theorem CollisionPluginLoaderImpl.activate_uncached_asks {ω : Type} (H : Host ω) (name : String)
    (scene : PlanningScenePtr) (self : CollisionPluginLoaderImpl ω) (loader : ClassLoader)
    (hfind : self.plugins_.find name = none) (hloader : self.loader_ = some loader) :
    ∃ b self1 result rest, CollisionPluginLoaderImpl.activate H name scene self = .ok (b, self1)
      ∧ self1.trace = self.trace ++ Event.createUniqueInstance name result :: rest := by
  rcases hc : H.createUniqueInstance loader name self.world with ⟨res, w1⟩
  cases res with
  | error ex =>
    exact ⟨false, _, none, _,
      CollisionPluginLoaderImpl.activate_of_raised H name scene self loader ex w1 hfind hloader hc,
      rfl⟩
  | ok h =>
    cases h with
    | none =>
      exact ⟨false, _, some none, [],
        CollisionPluginLoaderImpl.activate_of_returned_null H name scene self loader w1 hfind
          hloader hc,
        rfl⟩
    | some p =>
      exact ⟨_, _, some (some p), _,
        CollisionPluginLoaderImpl.activate_of_returned H name scene self loader p w1 hfind
          hloader hc,
        rfl⟩

/-- Claim C9. Assume the host's `createUniqueInstance` either raises or returns a
non-null plugin.  Then in every state reached from a freshly constructed loader
by a sequence of `activate` and `setupScene` calls, every handle in the cache is
non-null; so the lookup of a name never finds a null handle (the last `return
false` of `activate` is not reached), and `activate` of a cached name returns
what `initialize` of the cached plugin returns. -/
theorem reachable_handles_nonnull {ω : Type} (H : Host ω)
    (hH : ∀ loader name w w1, H.createUniqueInstance loader name w ≠ (.ok none, w1))
    (w0 : ω) (calls : List Call) (self : CollisionPluginLoaderImpl ω)
    (hrun : runCalls H calls (CollisionPluginLoaderImpl.new H w0) = .ok self) :
    (∀ e ∈ self.plugins_, e.2 ≠ none)
      ∧ (∀ name, self.plugins_.find name ≠ some none)
      ∧ (∀ name scene handle, self.plugins_.find name = some handle →
          ∃ p self1, handle = some p
            ∧ CollisionPluginLoaderImpl.activate H name scene self =
                .ok ((H.initializePlugin p scene self.world).1, self1)
            ∧ self1.trace = self.trace ++
                [.initializePlugin p scene (H.initializePlugin p scene self.world).1]) := by
  have hinv : ∀ e ∈ self.plugins_, e.2 ≠ none := by
    refine runCalls_preserves H (fun s => ∀ e ∈ s.plugins_, e.2 ≠ none)
      (fun a b hstep ha => CacheStep.nonnull H hH a b hstep ha) calls _ self hrun ?_
    intro e he
    rw [CollisionPluginLoaderImpl.new_plugins] at he
    exact absurd he (List.not_mem_nil e)
  have hfind : ∀ name, self.plugins_.find name ≠ some none := by
    intro name hnull
    exact hinv _ (PluginMap.find_mem _ _ _ hnull) rfl
  refine ⟨hinv, hfind, ?_⟩
  intro name scene handle hh
  cases handle with
  | none => exact absurd hh (hfind name)
  | some p =>
    exact ⟨p, _, rfl,
      CollisionPluginLoaderImpl.activate_of_cached H name scene self p hh, rfl⟩

/-- Evaluation on `strictHost`, whose class loader never returns a null
handle: the run `exampleCalls` from a loader built in world `5` ends in `exampleFinal`. -/
theorem reachable_handles_nonnull_witness :
    runCalls strictHost exampleCalls (CollisionPluginLoaderImpl.new strictHost 5) = .ok exampleFinal
      ∧ ((∀ e ∈ exampleFinal.plugins_, e.2 ≠ none)
        ∧ (∀ name, exampleFinal.plugins_.find name ≠ some none)
        ∧ (∀ name scene handle, exampleFinal.plugins_.find name = some handle →
            ∃ p self1, handle = some p
              ∧ CollisionPluginLoaderImpl.activate strictHost name scene exampleFinal =
                  .ok ((strictHost.initializePlugin p scene exampleFinal.world).1, self1)
              ∧ self1.trace = exampleFinal.trace ++
                  [.initializePlugin p scene
                    (strictHost.initializePlugin p scene exampleFinal.world).1])) :=
  ⟨rfl,
    reachable_handles_nonnull strictHost
      (by
        intro loader name w w1 h
        simp only [strictHost] at h
        split at h <;> simp at h)
      5 exampleCalls exampleFinal rfl⟩

/-- Claim C10. Through the public operations the cache only grows and no entry is
replaced: (1) over any sequence of `activate` and `setupScene` calls, a name
bound to a handle stays bound to that same handle; (2) from a freshly
constructed loader, the host returns an instance for each name at most once,
whatever `initialize` answers; (3) when the construction of a name raises, the
name is still not a key afterwards, and the next `activate` of it asks the host
class loader again. -/
theorem cache_only_grows {ω : Type} (H : Host ω) :
    (∀ calls self self1, runCalls H calls self = .ok self1 →
      ∀ name handle, self.plugins_.find name = some handle →
        self1.plugins_.find name = some handle)
    ∧ (∀ w0 calls self1, runCalls H calls (CollisionPluginLoaderImpl.new H w0) = .ok self1 →
      ∀ name, constructions name self1.trace ≤ 1)
    ∧ (∀ name scene (self : CollisionPluginLoaderImpl ω) loader ex w1,
      self.plugins_.find name = none → self.loader_ = some loader →
      H.createUniqueInstance loader name self.world = (.error ex, w1) →
      ∃ self1, CollisionPluginLoaderImpl.activate H name scene self = .ok (false, self1)
        ∧ self1.plugins_.find name = none
        ∧ ∀ scene2, ∃ b self2 result rest,
            CollisionPluginLoaderImpl.activate H name scene2 self1 = .ok (b, self2)
            ∧ self2.trace = self1.trace ++ Event.createUniqueInstance name result :: rest) := by
  refine ⟨?_, ?_, ?_⟩
  · intro calls self self1 hrun name handle hfind
    exact runCalls_preserves H (fun s => s.plugins_.find name = some handle)
      (fun a b hstep ha => CacheStep.find_kept H name handle a b hstep ha) calls self self1 hrun
      hfind
  · intro w0 calls self1 hrun name
    have hinv := runCalls_preserves H
      (fun s => ∀ n, constructions n s.trace ≤ 1
        ∧ (s.plugins_.find n = none → constructions n s.trace = 0))
      (fun a b hstep ha => CacheStep.constructions_bound H a b hstep ha) calls _ self1 hrun
      (fun n => by
        rw [CollisionPluginLoaderImpl.new_constructions]
        exact ⟨Nat.zero_le 1, fun _ => rfl⟩)
    exact (hinv name).1
  · intro name scene self loader ex w1 hfind hloader hcreate
    refine ⟨_,
      CollisionPluginLoaderImpl.activate_of_raised H name scene self loader ex w1 hfind hloader
        hcreate,
      hfind, ?_⟩
    intro scene2
    exact CollisionPluginLoaderImpl.activate_uncached_asks H name scene2 _ loader hfind hloader

/-- Evaluation on `strictHost`: over the run `exampleCalls`, which
activates `"fcl"` twice, the host constructs `"fcl"` once. -/
theorem cache_only_grows_witness :
    runCalls strictHost exampleCalls (CollisionPluginLoaderImpl.new strictHost 5) = .ok exampleFinal
      ∧ constructions "fcl" exampleFinal.trace ≤ 1
      ∧ constructions "fcl" exampleFinal.trace = 1 :=
  ⟨rfl, (cache_only_grows strictHost).2.1 5 exampleCalls exampleFinal rfl "fcl", by decide⟩

end collision_detection
